import Mathlib

/-!
Verification of the `otel-client` repository (Go): a shallow embedding of the
slog-to-OpenTelemetry bridge handler (`otelHandler` in src/otel/slog.go), the
provider lifecycle manager (`Otel.Setup` / `Otel.Shutdown` in src/otel/slog.go),
the tracer sampler selection (`Otel.initTracerProvider`), and the older handler
variant found in src/unnamed/part_000.

Machine integers of the Go code are modelled as `Int`/`Nat` (no overflow is
relevant: `slog.Level` arithmetic is only compared, never wrapped). External
SDK collaborators (exporter constructors, provider `Shutdown` methods, the
ambient span in a `context.Context`, `runtime.Caller`) are opaque: their
outcomes are passed in as explicit values, and the code under verification is
everything the repository itself does with those outcomes.
-/

namespace OtelClient

/-- Model of a `slog.Value` (the dynamically typed attribute value of the Go
standard library). Only the kinds the claims exercise are listed; `render`
below models `Value.String()`. -/
inductive SlogValue
  | str (s : String)
  | int (n : Int)
  | bool (b : Bool)
deriving DecidableEq, Repr

/-- Models `slog.Value.String()`: the textual form of a value. -/
def SlogValue.render : SlogValue → String
  | .str s => s
  | .int n => toString n
  | .bool b => if b then "true" else "false"

/-- Model of a `slog.Attr`: a key paired with a dynamically typed value. -/
structure SlogAttr where
  key : String
  value : SlogValue
deriving DecidableEq, Repr

/-- Model of an OTel `log.Value`. The OTel log API offers several kinds; the
handler under verification only ever constructs the string kind (via
`log.String`), which is what claim C10 is about. -/
inductive LogValue
  | str (s : String)
  | int (n : Int)
  | bool (b : Bool)
deriving DecidableEq, Repr

/-- `true` iff the OTel attribute value is of the string kind. -/
def LogValue.isStr : LogValue → Bool
  | .str _ => true
  | _ => false

/-- Model of an OTel `log.KeyValue`. -/
structure LogKV where
  key : String
  value : LogValue
deriving DecidableEq, Repr

/-- Models the `log.String(key, value)` constructor of the OTel log API. -/
def logString (k v : String) : LogKV := { key := k, value := LogValue.str v }

/-- The value slot of one entry of the `logAttrs []any` slice the handler
passes to the local terminal logger: either the original dynamically typed
`slog` value (`a.Value.Any()`), or a plain Go string. -/
inductive LocalValue
  | dynamic (v : SlogValue)
  | text (s : String)
deriving DecidableEq, Repr

/-- Model of `trace.Span.SpanContext()` data together with the recording flag:
`traceId` and `spanId` hold the already-rendered string forms
(`TraceID().String()` / `SpanID().String()`). -/
structure SpanInfo where
  recording : Bool
  traceId : String
  spanId : String
deriving DecidableEq, Repr

/-- Models `trace.SpanFromContext(ctx)`: a context either carries a span or
not; when it does not, the Go API returns a no-op span, which reports
`IsRecording() == false`. -/
def spanFromContext (ctx : Option SpanInfo) : SpanInfo :=
  match ctx with
  | some s => s
  | none => { recording := false, traceId := "", spanId := "" }

/-- Outcome of `runtime.Caller(3)` when it succeeds: a file and a line. -/
structure CallSite where
  file : String
  line : Int
deriving DecidableEq, Repr

/-- Model of a `slog.Record`: event time, level (`slog.Level` is an integer
type: Debug = -4, Info = 0, Warn = 4, Error = 8), message, and the
record-level attributes in record order (`r.Attrs` visits them in order and
the handler's callback always returns `true`, so all of them are seen). -/
structure SlogRecord where
  time : Int
  level : Int
  message : String
  attrs : List SlogAttr
deriving DecidableEq, Repr

def levelDebug : Int := -4
def levelInfo : Int := 0
def levelWarn : Int := 4
def levelError : Int := 8

/-- Model of the OTel `log.Severity` values the handler can produce. -/
inductive Severity
  | debug
  | info
  | warn
  | error
deriving DecidableEq, Repr

/-- Models `log.Severity.String()` for the four severities the handler uses. -/
def Severity.toText : Severity → String
  | .debug => "DEBUG"
  | .info => "INFO"
  | .warn => "WARN"
  | .error => "ERROR"

/-- The severity mapping of `otelHandler.Handle` (src/otel/slog.go): a
`switch` on `r.Level` whose cases are Debug, Warn and Error, with the value
pre-initialized to `log.SeverityInfo`, so every other level keeps Info. -/
def mapSeverity (level : Int) : Severity :=
  if level = levelDebug then Severity.debug
  else if level = levelWarn then Severity.warn
  else if level = levelError then Severity.error
  else Severity.info

/-- Model of the `otelHandler` struct of src/otel/slog.go. The two sink
references (`otelLogger`, `logger`) are opaque handles, modelled by identity
numbers; `attrs` and `group` are the accumulated handler state. -/
structure OtelHandler where
  otelLoggerId : Nat
  loggerId : Nat
  attrs : List SlogAttr
  group : String
deriving DecidableEq, Repr

/-- `otelHandler.WithAttrs` (src/otel/slog.go): copies the receiver's
attribute slice (`append([]slog.Attr(nil), h.attrs...)`), appends the new
attributes, and returns a fresh handler sharing both sink references. The
receiver is not mutated (in this pure embedding, no value ever is; the copy in
the Go code is what makes this embedding faithful). -/
def OtelHandler.withAttrs (h : OtelHandler) (newAttrs : List SlogAttr) : OtelHandler :=
  { h with attrs := h.attrs ++ newAttrs }

/-- `otelHandler.WithGroup` (src/otel/slog.go): returns a fresh handler with
the group label replaced by `name`, sharing sinks and attributes. -/
def OtelHandler.withGroup (h : OtelHandler) (name : String) : OtelHandler :=
  { h with group := name }

/-- The remote (OTLP) attribute slice `attrs` built by `otelHandler.Handle`
(src/otel/slog.go), mirroring the Go append sequence statement by statement:
handler-level attributes, record-level attributes, the synthetic group
attribute when the group label is non-empty, the span correlation pair when
the context's span is recording, and the call-site `source` attribute when
`runtime.Caller(3)` succeeds. Every entry is built with `log.String`. -/
def emittedRemoteAttrs (h : OtelHandler) (ctx : Option SpanInfo) (r : SlogRecord)
    (cs : Option CallSite) : List LogKV :=
  let attrs : List LogKV := []
  let attrs := attrs ++ h.attrs.map (fun a => logString a.key a.value.render)
  let attrs := attrs ++ r.attrs.map (fun a => logString a.key a.value.render)
  let attrs := if h.group = "" then attrs else attrs ++ [logString "group" h.group]
  let attrs :=
    if (spanFromContext ctx).recording then
      attrs ++ [logString "trace_id" (spanFromContext ctx).traceId,
                logString "span_id" (spanFromContext ctx).spanId]
    else attrs
  match cs with
  | some c => attrs ++ [logString "source" (c.file ++ ":" ++ toString c.line)]
  | none => attrs

/-- The local `logAttrs []any` slice built by `otelHandler.Handle`, as
key/value pairs (the Go code always appends a key and its value together):
handler and record attributes carry the original dynamically typed value
(`a.Value.Any()`); group, correlation and source entries are plain strings. -/
def localEmittedAttrs (h : OtelHandler) (ctx : Option SpanInfo) (r : SlogRecord)
    (cs : Option CallSite) : List (String × LocalValue) :=
  let la : List (String × LocalValue) := []
  let la := la ++ h.attrs.map (fun a => (a.key, LocalValue.dynamic a.value))
  let la := la ++ r.attrs.map (fun a => (a.key, LocalValue.dynamic a.value))
  let la := if h.group = "" then la else la ++ [("group", LocalValue.text h.group)]
  let la :=
    if (spanFromContext ctx).recording then
      la ++ [("trace_id", LocalValue.text (spanFromContext ctx).traceId),
             ("span_id", LocalValue.text (spanFromContext ctx).spanId)]
    else la
  match cs with
  | some c => la ++ [("source", LocalValue.text (c.file ++ ":" ++ toString c.line))]
  | none => la

/-- Model of the OTel `log.Record` built by `Handle`: severity, severity text
(`severity.String()`), event timestamp (`r.Time`), observed timestamp
(`time.Now()`, passed in as `now`), body (`r.Message`) and the attributes. -/
structure LogRecord where
  severity : Severity
  severityText : String
  timestamp : Int
  observedTimestamp : Int
  body : String
  attributes : List LogKV
deriving DecidableEq, Repr

/-- The record `Handle` emits to the remote sink. -/
def buildLogRecord (h : OtelHandler) (ctx : Option SpanInfo) (r : SlogRecord)
    (now : Int) (cs : Option CallSite) : LogRecord :=
  { severity := mapSeverity r.level
    severityText := (mapSeverity r.level).toText
    timestamp := r.time
    observedTimestamp := now
    body := r.message
    attributes := emittedRemoteAttrs h ctx r cs }

/-- One externally visible side effect of a `Handle` call: an `Emit` on the
OTel logger (which returns nothing in the OTel log API, so its failure cannot
reach the caller), or a `Log` on the local terminal logger. -/
inductive HandleEffect
  | emitRemote (rec : LogRecord)
  | writeLocal (level : Int) (msg : String) (la : List (String × LocalValue))
deriving DecidableEq, Repr

/-- `otelHandler.Handle` (src/otel/slog.go): builds the two attribute slices
and the canonical record, emits to the OTel logger, then logs to the terminal
logger, and returns `nil` unconditionally. The result is the ordered effect
list plus the returned error. -/
def OtelHandler.handle (h : OtelHandler) (ctx : Option SpanInfo) (r : SlogRecord)
    (now : Int) (cs : Option CallSite) : List HandleEffect × Option String :=
  ([HandleEffect.emitRemote (buildLogRecord h ctx r now cs),
    HandleEffect.writeLocal r.level r.message (localEmittedAttrs h ctx r cs)],
   none)

/-- `otelHandler.Enabled` (src/otel/slog.go) always reports true. -/
def OtelHandler.enabled (_h : OtelHandler) (_level : Int) : Bool := true

/-! ### The older handler variant of src/unnamed/part_000

The repository also contains an earlier `otelHandler` (src/unnamed/part_000)
whose struct has no attribute or group state at all, and whose `WithAttrs` and
`WithGroup` both `return h` — the receiver itself, dropping the arguments. -/

/-- The `otelHandler` struct of src/unnamed/part_000: only the two sink
references, no accumulated attributes, no group label. -/
structure OtelHandlerV0 where
  otelLoggerId : Nat
  loggerId : Nat
deriving DecidableEq, Repr

/-- `otelHandler.WithAttrs` in src/unnamed/part_000: `return h` — the
arguments are discarded and the receiver is returned unchanged. -/
def OtelHandlerV0.withAttrs (h : OtelHandlerV0) (_newAttrs : List SlogAttr) : OtelHandlerV0 := h

/-- `otelHandler.WithGroup` in src/unnamed/part_000: `return h`. -/
def OtelHandlerV0.withGroup (h : OtelHandlerV0) (_name : String) : OtelHandlerV0 := h

/-- The remote attribute slice built by `otelHandler.Handle` in
src/unnamed/part_000: record-level attributes (stringified), then the span
correlation pair when recording. There is no handler-level contribution, no
group and no call-site attribute in that variant. -/
def OtelHandlerV0.handleRemoteAttrs (_h : OtelHandlerV0) (ctx : Option SpanInfo)
    (r : SlogRecord) : List LogKV :=
  let attrs := r.attrs.map (fun a => logString a.key a.value.render)
  if (spanFromContext ctx).recording then
    attrs ++ [logString "trace_id" (spanFromContext ctx).traceId,
              logString "span_id" (spanFromContext ctx).spanId]
  else attrs

/-! ### Provider lifecycle manager (`Otel` in src/otel/slog.go) -/

/-- Model of a Go `error` value: a leaf message, or the aggregate that
`errors.Join` wraps a non-empty error list into. -/
inductive GoError
  | msg (s : String)
  | joined (errs : List GoError)

/-- Models `errors.Join(errs...)` as used in `Otel.Shutdown`: the Go code only
ever appends non-nil errors to `errs`, and `errors.Join` returns nil for an
empty list and an aggregate error otherwise. -/
def errorsJoin (errs : List GoError) : Option GoError :=
  match errs with
  | [] => none
  | es => some (GoError.joined es)

/-- Model of an SDK provider handle (logger / meter / tracer provider). The
SDK is an external collaborator: its `Shutdown(ctx)` is opaque, so the result
of its i-th invocation is part of the value (`shutdownResults`, defaulting to
nil beyond the listed entries), and `shutdownCalls` counts how many times the
repository's code has invoked it. A handle that was produced by a successful
init and never shut down is live. -/
structure SdkProvider where
  shutdownCalls : Nat
  shutdownResults : List (Option GoError)

/-- One `provider.Shutdown(ctx)` invocation: bumps the call counter and
yields the opaque result of this invocation. -/
def SdkProvider.shutdownCall (p : SdkProvider) : SdkProvider × Option GoError :=
  ({ p with shutdownCalls := p.shutdownCalls + 1 },
   p.shutdownResults.getD p.shutdownCalls none)

/-- A provider handle that has never been shut down is still live. -/
def SdkProvider.live (p : SdkProvider) : Bool := p.shutdownCalls == 0

def optionLive : Option SdkProvider → Bool
  | none => false
  | some p => p.live

/-- Model of the `Config` struct (src/otel/slog.go). `SampleRate` is a Go
float64 used only in the comparison `> 0` and as the ratio argument, so it is
modelled as a rational. -/
structure Config where
  host : String
  token : String
  serviceName : String
  environment : String
  organization : String
  streamName : String
  sampleRate : Rat
deriving DecidableEq, Repr

/-- Model of the `Otel` struct (src/otel/slog.go): the configuration and the
three provider handles, all nil until their stage of `Setup` succeeds. -/
structure Otel where
  config : Config
  logger : Option SdkProvider
  meter : Option SdkProvider
  tracer : Option SdkProvider

/-- `New(config)` (src/otel/slog.go): all provider handles start nil. -/
def Otel.new (c : Config) : Otel :=
  { config := c, logger := none, meter := none, tracer := none }

/-- `true` iff some provider handle of the bundle is still live. -/
def Otel.anyLive (o : Otel) : Bool :=
  optionLive o.logger || optionLive o.meter || optionLive o.tracer

/-- `Otel.Setup` (src/otel/slog.go lines 173-203). The three stage
initializers (`initLoggerProvider`, `initMeterProvider`,
`initTracerProvider`) construct network exporters, so their outcomes are
passed in as explicit `Except` values. The control flow mirrors the Go
exactly: each stage that fails returns its error at once; each stage that
succeeds stores its handle before the next stage runs; no handle stored by an
earlier stage is ever shut down or cleared on a later stage's failure. -/
def Otel.setup (o : Otel) (initLogger initMeter initTracer : Except GoError SdkProvider) :
    Otel × Option GoError :=
  match initLogger with
  | .error e => (o, some e)
  | .ok lp =>
    let o1 := { o with logger := some lp }
    match initMeter with
    | .error e => (o1, some e)
    | .ok mp =>
      let o2 := { o1 with meter := some mp }
      match initTracer with
      | .error e => (o2, some e)
      | .ok tp => ({ o2 with tracer := some tp }, none)

/-- The three shutdown stages, in the order `Otel.Shutdown` visits them. -/
inductive Stage
  | log
  | metric
  | trace
deriving DecidableEq, Repr

/-- Result of one `Otel.Shutdown` call: the updated value, the ordered list
of provider `Shutdown` invocations actually made (stage plus that
invocation's result), and the returned error. -/
structure ShutdownOutcome where
  state : Otel
  attempts : List (Stage × Option GoError)
  result : Option GoError

/-- `Otel.Shutdown` (src/otel/slog.go lines 206-224): each of the three
handles is nil-checked; every non-nil handle's SDK `Shutdown` is invoked, in
the order logger, meter, tracer, regardless of earlier results; each non-nil
error is appended to `errs`; the return value is `errors.Join(errs...)`.
Nothing marks the `Otel` value as already shut down: the handles stay set. -/
def Otel.shutdown (o : Otel) : ShutdownOutcome :=
  let stepL : Option SdkProvider × List (Stage × Option GoError) :=
    match o.logger with
    | none => (none, [])
    | some p =>
      let c := p.shutdownCall
      (some c.1, [(Stage.log, c.2)])
  let stepM : Option SdkProvider × List (Stage × Option GoError) :=
    match o.meter with
    | none => (none, [])
    | some p =>
      let c := p.shutdownCall
      (some c.1, [(Stage.metric, c.2)])
  let stepT : Option SdkProvider × List (Stage × Option GoError) :=
    match o.tracer with
    | none => (none, [])
    | some p =>
      let c := p.shutdownCall
      (some c.1, [(Stage.trace, c.2)])
  let attempts := stepL.2 ++ stepM.2 ++ stepT.2
  let errs := attempts.filterMap (fun a => a.2)
  { state := { o with logger := stepL.1, meter := stepM.1, tracer := stepT.1 }
    attempts := attempts
    result := errorsJoin errs }

/-! ### Sampler selection (`Otel.initTracerProvider`, src/otel/slog.go) -/

/-- Model of the SDK sampler values `initTracerProvider` can configure. -/
inductive Sampler
  | alwaysSample
  | parentBased (root : Sampler)
  | traceIdRatioBased (ratio : Rat)
deriving DecidableEq, Repr

/-- The sampler chosen by `Otel.initTracerProvider` (src/otel/slog.go lines
340-348): `sampler := sdktrace.AlwaysSample()`, overridden with
`ParentBased(TraceIDRatioBased(SampleRate))` when `SampleRate > 0`; the
chosen sampler is passed to `NewTracerProvider` via `WithSampler`. -/
def tracerSampler (c : Config) : Sampler :=
  if 0 < c.sampleRate then
    Sampler.parentBased (Sampler.traceIdRatioBased c.sampleRate)
  else
    Sampler.alwaysSample

/-! ### Derived notions used by the claims -/

/-- The handler-level contribution to the remote attribute slice. -/
def handlerAttrPart (h : OtelHandler) : List LogKV :=
  h.attrs.map (fun a => logString a.key a.value.render)

/-- The record-level contribution to the remote attribute slice. -/
def recordAttrPart (r : SlogRecord) : List LogKV :=
  r.attrs.map (fun a => logString a.key a.value.render)

/-- The synthetic group attribute, present iff the group label is non-empty. -/
def groupAttrPart (h : OtelHandler) : List LogKV :=
  if h.group = "" then [] else [logString "group" h.group]

/-- The span correlation pair, present iff the context's span is recording. -/
def traceAttrPart (ctx : Option SpanInfo) : List LogKV :=
  if (spanFromContext ctx).recording then
    [logString "trace_id" (spanFromContext ctx).traceId,
     logString "span_id" (spanFromContext ctx).spanId]
  else []

/-- The call-site attribute, present iff `runtime.Caller(3)` succeeded. -/
def sourceAttrPart (cs : Option CallSite) : List LogKV :=
  match cs with
  | some c => [logString "source" (c.file ++ ":" ++ toString c.line)]
  | none => []

/-- The attribute order the specification describes for the remote record:
handler-level attributes, then record-level attributes, then the group
attribute, then the trace correlation pair. (Written from the spec, for
comparison with `emittedRemoteAttrs`, which is written from the source.) -/
def claimedAttrOrder (h : OtelHandler) (ctx : Option SpanInfo) (r : SlogRecord) : List LogKV :=
  handlerAttrPart h ++ recordAttrPart r ++ groupAttrPart h ++ traceAttrPart ctx

/-- Group entry of the local attribute slice. -/
def localGroupPart (h : OtelHandler) : List (String × LocalValue) :=
  if h.group = "" then [] else [("group", LocalValue.text h.group)]

/-- Correlation entries of the local attribute slice. -/
def localTracePart (ctx : Option SpanInfo) : List (String × LocalValue) :=
  if (spanFromContext ctx).recording then
    [("trace_id", LocalValue.text (spanFromContext ctx).traceId),
     ("span_id", LocalValue.text (spanFromContext ctx).spanId)]
  else []

/-- Call-site entry of the local attribute slice. -/
def localSourcePart (cs : Option CallSite) : List (String × LocalValue) :=
  match cs with
  | some c => [("source", LocalValue.text (c.file ++ ":" ++ toString c.line))]
  | none => []

/-- Number of attributes with the given key in an OTel attribute slice. -/
def countKey (k : String) (l : List LogKV) : Nat :=
  l.countP (fun kv => kv.key == k)

def isRemoteEmit : HandleEffect → Bool
  | .emitRemote _ => true
  | _ => false

def isLocalWrite : HandleEffect → Bool
  | .writeLocal _ _ _ => true
  | _ => false

/-- Number of remote `Emit` calls among the effects of one `Handle` call. -/
def countRemoteEmits (l : List HandleEffect) : Nat := l.countP isRemoteEmit

/-- Number of local terminal writes among the effects of one `Handle` call. -/
def countLocalWrites (l : List HandleEffect) : Nat := l.countP isLocalWrite

/-- The provider handle after one more SDK `Shutdown` invocation. -/
def bumpCalls : Option SdkProvider → Option SdkProvider
  | none => none
  | some p => some { p with shutdownCalls := p.shutdownCalls + 1 }

/-- The provider handle after two more SDK `Shutdown` invocations. -/
def bumpTwice : Option SdkProvider → Option SdkProvider
  | none => none
  | some p => some { p with shutdownCalls := p.shutdownCalls + 2 }

/-- An (uninitialized or) initialized provider whose SDK `Shutdown` returns
nil on every invocation. -/
def providerOk : Option SdkProvider → Prop
  | none => True
  | some p => p.shutdownResults = []

/-! ### Concrete sample values for counterexamples and witnesses -/

def cfg0 : Config :=
  { host := "localhost:5080", token := "tok", serviceName := "svc"
    environment := "dev", organization := "org", streamName := "main"
    sampleRate := 0 }

def cfgHalf : Config :=
  { host := "localhost:5080", token := "tok", serviceName := "svc"
    environment := "dev", organization := "org", streamName := "main"
    sampleRate := 1/2 }

/-- A provider fresh from a successful init, never shut down. -/
def freshProvider : SdkProvider := { shutdownCalls := 0, shutdownResults := [] }

def metricInitErr : GoError := GoError.msg "metric exporter init failed"

/-- Outcome of a `Setup` run whose metric stage fails: logger init succeeded,
metric init failed, tracer init never runs. -/
def c1FailedSetup : Otel × Option GoError :=
  (Otel.new cfg0).setup (Except.ok freshProvider) (Except.error metricInitErr)
    (Except.ok freshProvider)

/-- A provider whose first SDK `Shutdown` succeeds and whose second returns an
error (as the OTel metric SDK's periodic reader does: a second shutdown
reports the reader as already shut down). -/
def flakyProvider : SdkProvider :=
  { shutdownCalls := 0
    shutdownResults := [none, some (GoError.msg "reader already shut down")] }

/-- An `Otel` bundle whose only initialized provider is `flakyProvider`. -/
def oFlaky : Otel :=
  { config := cfg0, logger := some flakyProvider, meter := none, tracer := none }

/-- An `Otel` bundle with one well-behaved initialized provider. -/
def oCalm : Otel :=
  { config := cfg0, logger := some freshProvider, meter := none, tracer := none }

def userAttr : SlogAttr := { key := "user", value := SlogValue.str "alice" }

def v0Handler : OtelHandlerV0 := { otelLoggerId := 0, loggerId := 0 }

def baseHandler : OtelHandler :=
  { otelLoggerId := 0, loggerId := 0, attrs := [], group := "" }

/-- A record with no attributes. -/
def plainRecord : SlogRecord := { time := 0, level := 0, message := "hi", attrs := [] }

/-- A record carrying a user attribute that collides with the correlation key. -/
def collidingRecord : SlogRecord :=
  { time := 0, level := 0, message := "hi"
    attrs := [{ key := "trace_id", value := SlogValue.str "deadbeef" }] }

/-- A recording span with known identifiers. -/
def recSpan : SpanInfo := { recording := true, traceId := "t-1", spanId := "s-1" }

/-! ### Helper lemmas -/

/-- The remote attribute slice decomposes into its five contributions. -/
lemma emittedRemoteAttrs_parts (h : OtelHandler) (ctx : Option SpanInfo)
    (r : SlogRecord) (cs : Option CallSite) :
    emittedRemoteAttrs h ctx r cs =
      handlerAttrPart h ++ recordAttrPart r ++ groupAttrPart h ++
        traceAttrPart ctx ++ sourceAttrPart cs := by
  unfold emittedRemoteAttrs handlerAttrPart recordAttrPart groupAttrPart
    traceAttrPart sourceAttrPart
  cases cs <;> by_cases hg : h.group = "" <;>
    cases hrec : (spanFromContext ctx).recording <;>
      simp [hg, hrec, List.append_assoc]

/-- The local attribute slice decomposes into its five contributions. -/
lemma localEmittedAttrs_parts (h : OtelHandler) (ctx : Option SpanInfo)
    (r : SlogRecord) (cs : Option CallSite) :
    localEmittedAttrs h ctx r cs =
      h.attrs.map (fun a => (a.key, LocalValue.dynamic a.value)) ++
        r.attrs.map (fun a => (a.key, LocalValue.dynamic a.value)) ++
        localGroupPart h ++ localTracePart ctx ++ localSourcePart cs := by
  unfold localEmittedAttrs localGroupPart localTracePart localSourcePart
  cases cs <;> by_cases hg : h.group = "" <;>
    cases hrec : (spanFromContext ctx).recording <;>
      simp [hg, hrec, List.append_assoc]

/-- `errors.Join` returns nil exactly on the empty error list. -/
lemma errorsJoin_eq_none_iff (es : List GoError) : errorsJoin es = none ↔ es = [] := by
  cases es <;> simp [errorsJoin]

/-- Counting a key distributes over append. -/
lemma countKey_append (k : String) (l1 l2 : List LogKV) :
    countKey k (l1 ++ l2) = countKey k l1 + countKey k l2 := by
  simp [countKey]

/-- A slice of stringified attributes contains a key no attribute had. -/
lemma countKey_handlerPart (k : String) (h : OtelHandler)
    (hl : ∀ a ∈ h.attrs, a.key ≠ k) : countKey k (handlerAttrPart h) = 0 := by
  unfold countKey handlerAttrPart
  rw [List.countP_map]
  rw [List.countP_eq_zero]
  intro a ha
  simp [logString]
  exact hl a ha

lemma countKey_recordPart (k : String) (r : SlogRecord)
    (hl : ∀ a ∈ r.attrs, a.key ≠ k) : countKey k (recordAttrPart r) = 0 := by
  unfold countKey recordAttrPart
  rw [List.countP_map]
  rw [List.countP_eq_zero]
  intro a ha
  simp [logString]
  exact hl a ha

/-- The group attribute never carries a key other than its own. -/
lemma countKey_groupPart (k : String) (h : OtelHandler) (hne : "group" ≠ k) :
    countKey k (groupAttrPart h) = 0 := by
  unfold countKey groupAttrPart
  by_cases hg : h.group = "" <;> simp [hg, List.countP_cons, logString, hne]

/-- The call-site attribute never carries a key other than its own. -/
lemma countKey_sourcePart (k : String) (cs : Option CallSite) (hne : "source" ≠ k) :
    countKey k (sourceAttrPart cs) = 0 := by
  unfold countKey sourceAttrPart
  cases cs <;> simp [List.countP_cons, logString, hne]

/-- No correlation attributes while the span is not recording. -/
lemma countKey_tracePart_notrec (k : String) (ctx : Option SpanInfo)
    (hrec : (spanFromContext ctx).recording = false) :
    countKey k (traceAttrPart ctx) = 0 := by
  unfold countKey traceAttrPart
  simp [hrec]

/-- The correlation pair while the span is recording. -/
lemma tracePart_rec (ctx : Option SpanInfo)
    (hrec : (spanFromContext ctx).recording = true) :
    traceAttrPart ctx =
      [logString "trace_id" (spanFromContext ctx).traceId,
       logString "span_id" (spanFromContext ctx).spanId] := by
  unfold traceAttrPart
  simp [hrec]

/-! ### Claim theorems -/

/-- Claim C5: every `Handle` invocation performs exactly one remote emit and
exactly one local terminal write, the remote emit comes first, and `Handle`
returns nil in every case, so nothing about the remote sink can prevent the
local write or reach the caller. -/
theorem c5_handle_dual_sink (h : OtelHandler) (ctx : Option SpanInfo)
    (r : SlogRecord) (now : Int) (cs : Option CallSite) :
    (h.handle ctx r now cs).2 = none ∧
    (h.handle ctx r now cs).1 =
      [HandleEffect.emitRemote (buildLogRecord h ctx r now cs),
       HandleEffect.writeLocal r.level r.message (localEmittedAttrs h ctx r cs)] ∧
    countRemoteEmits (h.handle ctx r now cs).1 = 1 ∧
    countLocalWrites (h.handle ctx r now cs).1 = 1 :=
  ⟨rfl, rfl, rfl, rfl⟩

/-- Claim C7: the emitted attribute slice is built as handler-level
attributes, then record-level attributes, then the synthetic group attribute
(only for a non-empty group label), then the trace correlation pair when
present — followed by the call-site attribute, which the code appends last —
and its length is the sum of the parts, so duplicate keys between accumulated
and record-level attributes are all kept, nothing suppressed or deduplicated. -/
theorem c7_attr_merge_order (h : OtelHandler) (ctx : Option SpanInfo)
    (r : SlogRecord) (cs : Option CallSite) :
    emittedRemoteAttrs h ctx r cs = claimedAttrOrder h ctx r ++ sourceAttrPart cs ∧
    (emittedRemoteAttrs h ctx r cs).length =
      h.attrs.length + r.attrs.length + (groupAttrPart h).length +
        (traceAttrPart ctx).length + (sourceAttrPart cs).length := by
  constructor
  · rw [emittedRemoteAttrs_parts, claimedAttrOrder]
  · rw [emittedRemoteAttrs_parts]
    simp [handlerAttrPart, recordAttrPart]
    ring

/-- Claim C8: the severity mapping is a deterministic total function of the
level: Debug (-4) to Debug, Warn (4) to Warn, Error (8) to Error, and every
other level — Info (0) included — to Info; the built record's severity text is
the text form of the mapped severity. -/
theorem c8_severity_total (l : Int) :
    mapSeverity levelDebug = Severity.debug ∧
    mapSeverity levelWarn = Severity.warn ∧
    mapSeverity levelError = Severity.error ∧
    mapSeverity levelInfo = Severity.info ∧
    (l ≠ levelDebug → l ≠ levelWarn → l ≠ levelError → mapSeverity l = Severity.info) ∧
    (∀ (h : OtelHandler) (ctx : Option SpanInfo) (r : SlogRecord) (now : Int)
        (cs : Option CallSite),
      (buildLogRecord h ctx r now cs).severity = mapSeverity r.level ∧
      (buildLogRecord h ctx r now cs).severityText = (mapSeverity r.level).toText) := by
  refine ⟨by decide, by decide, by decide, by decide, ?_, fun h ctx r now cs => ⟨rfl, rfl⟩⟩
  intro h1 h2 h3
  unfold mapSeverity
  rw [if_neg h1, if_neg h2, if_neg h3]

theorem c8_severity_total_witness : mapSeverity 7 = Severity.info :=
  (c8_severity_total 7).2.2.2.2.1 (by decide) (by decide) (by decide)

/-- Claim C9: the tracer provider's sampler is determined by `SampleRate`
alone — always-sample when it is 0, parent-based trace-ID-ratio with that
ratio when it is positive. -/
theorem c9_sampler_from_rate (c : Config) :
    (c.sampleRate = 0 → tracerSampler c = Sampler.alwaysSample) ∧
    (0 < c.sampleRate →
      tracerSampler c = Sampler.parentBased (Sampler.traceIdRatioBased c.sampleRate)) := by
  constructor
  · intro h0
    unfold tracerSampler
    rw [if_neg]
    rw [h0]
    exact lt_irrefl 0
  · intro hpos
    unfold tracerSampler
    rw [if_pos hpos]

theorem c9_sampler_from_rate_witness :
    tracerSampler cfg0 = Sampler.alwaysSample ∧
    tracerSampler cfgHalf = Sampler.parentBased (Sampler.traceIdRatioBased (1/2)) :=
  ⟨(c9_sampler_from_rate cfg0).1 rfl,
   (c9_sampler_from_rate cfgHalf).2 (by norm_num [cfgHalf])⟩

/-- Claim C10: every attribute `Handle` forwards to the remote sink is
string-typed — handler-level and record-level values of any kind are rendered
to their string form first — while the local terminal logger receives the
original dynamically typed values for handler and record attributes. -/
theorem c10_remote_values_stringified (h : OtelHandler) (ctx : Option SpanInfo)
    (r : SlogRecord) (cs : Option CallSite) :
    (emittedRemoteAttrs h ctx r cs).all (fun kv => kv.value.isStr) = true ∧
    localEmittedAttrs h ctx r cs =
      h.attrs.map (fun a => (a.key, LocalValue.dynamic a.value)) ++
        r.attrs.map (fun a => (a.key, LocalValue.dynamic a.value)) ++
        localGroupPart h ++ localTracePart ctx ++ localSourcePart cs := by
  refine ⟨?_, localEmittedAttrs_parts h ctx r cs⟩
  rw [emittedRemoteAttrs_parts]
  simp only [List.all_append, Bool.and_eq_true, List.all_eq_true]
  refine ⟨⟨⟨⟨?_, ?_⟩, ?_⟩, ?_⟩, ?_⟩
  · intro kv hkv
    rw [handlerAttrPart] at hkv
    obtain ⟨a, _, rfl⟩ := List.mem_map.mp hkv
    rfl
  · intro kv hkv
    rw [recordAttrPart] at hkv
    obtain ⟨a, _, rfl⟩ := List.mem_map.mp hkv
    rfl
  · intro kv hkv
    rw [groupAttrPart] at hkv
    by_cases hg : h.group = "" <;> simp [hg] at hkv
    rw [hkv]
    rfl
  · intro kv hkv
    rw [traceAttrPart] at hkv
    cases hrec : (spanFromContext ctx).recording <;> simp [hrec] at hkv
    rcases hkv with hkv | hkv <;> rw [hkv] <;> rfl
  · intro kv hkv
    cases cs <;> simp [sourceAttrPart] at hkv
    rw [hkv]
    rfl

/-- Claim C4 (code bug): the `otelHandler` of src/otel/slog.go honors the
derivation contract — `WithAttrs` concatenates onto the receiver's sequence
and `WithGroup` replaces the group label, both returning a fresh handler
sharing the sink references — but the `otelHandler` variant of
src/unnamed/part_000 returns the receiver itself from both operations,
so an attribute added through `WithAttrs` never reaches its emitted record. -/
theorem c4_withattrs_contract_eval :
    (∀ (h : OtelHandler) (na : List SlogAttr) (g : String),
      (h.withAttrs na).attrs = h.attrs ++ na ∧
      (h.withAttrs na).group = h.group ∧
      (h.withAttrs na).otelLoggerId = h.otelLoggerId ∧
      (h.withAttrs na).loggerId = h.loggerId ∧
      (h.withGroup g).group = g ∧
      (h.withGroup g).attrs = h.attrs) ∧
    (∀ (v : OtelHandlerV0) (na : List SlogAttr) (g : String),
      v.withAttrs na = v ∧ v.withGroup g = v) ∧
    (baseHandler.withAttrs [userAttr]).attrs = [userAttr] ∧
    emittedRemoteAttrs (baseHandler.withAttrs [userAttr]) none plainRecord none =
      [logString "user" "alice"] ∧
    v0Handler.withAttrs [userAttr] = v0Handler ∧
    (v0Handler.withAttrs [userAttr]).handleRemoteAttrs none plainRecord = [] :=
  ⟨fun h na g => ⟨rfl, rfl, rfl, rfl, rfl, rfl⟩,
   fun v na g => ⟨rfl, rfl⟩, rfl, rfl, rfl, rfl⟩

/-- Claim C2: `Shutdown` attempts the shutdown of every initialized provider
in the order log, metric, trace, regardless of earlier failures; it returns
the join of all stage errors, is nil exactly when no attempted stage failed,
and is total (nil handles are skipped by the nil-checks, never dereferenced). -/
theorem c2_shutdown_attempts_all (o : Otel) :
    (o.shutdown).attempts.map Prod.fst =
      (if o.logger.isSome then [Stage.log] else []) ++
        (if o.meter.isSome then [Stage.metric] else []) ++
        (if o.tracer.isSome then [Stage.trace] else []) ∧
    (o.shutdown).state.logger = bumpCalls o.logger ∧
    (o.shutdown).state.meter = bumpCalls o.meter ∧
    (o.shutdown).state.tracer = bumpCalls o.tracer ∧
    ((o.shutdown).result = none ↔ ∀ a ∈ (o.shutdown).attempts, a.2 = none) := by
  obtain ⟨cfg, lg, mt, tr⟩ := o
  refine ⟨?_, ?_, ?_, ?_, ?_⟩ <;>
    cases lg <;> cases mt <;> cases tr <;>
      simp [Otel.shutdown, SdkProvider.shutdownCall, bumpCalls, errorsJoin_eq_none_iff]

/-- Claim C1 (counterexample): a `Setup` run whose metric stage fails returns
the metric stage's error while the logger provider initialized at stage 1 is
still stored and live — it was never shut down — so stages initialized before
the failing one are not torn down and a provider is left running. -/
theorem c1_setup_counterexample :
    c1FailedSetup.2 = some metricInitErr ∧
    c1FailedSetup.1.logger = some freshProvider ∧
    freshProvider.live = true ∧
    c1FailedSetup.1.anyLive = true :=
  ⟨rfl, rfl, rfl, rfl⟩

/-- Claim C1 (amended): if `Setup` fails at the metric stage it aborts at
once with that stage's error, the meter and tracer handles stay nil (no stage
at or after the failing one is live), and the logger handle initialized
before it stays stored untouched — live, not torn down; likewise a trace
stage failure leaves logger and meter stored untouched and the tracer nil.
A subsequent `Shutdown` does not panic: it attempts exactly the stages that
were initialized. -/
theorem c1_setup_partial_failure :
    ∀ (cfg : Config) (lp mp : SdkProvider) (e : GoError)
      (it : Except GoError SdkProvider),
    (Otel.new cfg).setup (Except.ok lp) (Except.error e) it =
      ({ config := cfg, logger := some lp, meter := none, tracer := none }, some e) ∧
    (Otel.new cfg).setup (Except.ok lp) (Except.ok mp) (Except.error e) =
      ({ config := cfg, logger := some lp, meter := some mp, tracer := none }, some e) ∧
    ((((Otel.new cfg).setup (Except.ok lp) (Except.error e) it).1.shutdown).attempts.map
        Prod.fst) = [Stage.log] ∧
    ((((Otel.new cfg).setup (Except.ok lp) (Except.ok mp) (Except.error e)).1.shutdown).attempts.map
        Prod.fst) = [Stage.log, Stage.metric] :=
  fun cfg lp mp e it => ⟨rfl, rfl, rfl, rfl⟩

/-- Claim C3 (counterexample): `Shutdown` keeps no record of having run, so a
second call re-invokes each initialized provider's SDK `Shutdown`. With a
provider whose first shutdown succeeds and whose second reports it already
shut down (the behavior of the OTel metric SDK's periodic reader), the first
`Shutdown` returns nil but the second returns a non-nil joined error and has
invoked the provider's shutdown a second time — not a no-op returning nil. -/
theorem c3_second_shutdown_counterexample :
    (oFlaky.shutdown).result = none ∧
    ((oFlaky.shutdown).state.shutdown).result =
      some (GoError.joined [GoError.msg "reader already shut down"]) ∧
    ((oFlaky.shutdown).state.shutdown).state.logger =
      some { shutdownCalls := 2, shutdownResults := flakyProvider.shutdownResults } :=
  ⟨rfl, rfl, rfl⟩

/-- Claim C3 (amended): a second consecutive `Shutdown` call does not panic
and re-invokes each initialized provider's SDK `Shutdown` (the wrapper keeps
no already-shut-down flag — each handle's invocation count rises to two);
both calls return nil provided every initialized provider's SDK `Shutdown`
returns nil on every invocation, i.e. idempotence is delegated entirely to
the providers. -/
theorem c3_second_shutdown (o : Otel) (hl : providerOk o.logger)
    (hm : providerOk o.meter) (ht : providerOk o.tracer) :
    (o.shutdown).result = none ∧
    ((o.shutdown).state.shutdown).result = none ∧
    ((o.shutdown).state.shutdown).state.logger = bumpTwice o.logger ∧
    ((o.shutdown).state.shutdown).state.meter = bumpTwice o.meter ∧
    ((o.shutdown).state.shutdown).state.tracer = bumpTwice o.tracer := by
  obtain ⟨cfg, lg, mt, tr⟩ := o
  cases lg <;> cases mt <;> cases tr <;>
    simp [providerOk] at hl hm ht <;>
      refine ⟨?_, ?_, ?_, ?_, ?_⟩ <;>
        simp [Otel.shutdown, SdkProvider.shutdownCall, bumpTwice, errorsJoin, *]

theorem c3_second_shutdown_witness :
    (oCalm.shutdown).result = none ∧ ((oCalm.shutdown).state.shutdown).result = none :=
  ⟨(c3_second_shutdown oCalm rfl trivial trivial).1,
   (c3_second_shutdown oCalm rfl trivial trivial).2.1⟩

/-- Claim C6 (counterexample): nothing in `Handle` deduplicates keys, so a
record-level attribute that itself uses the key `trace_id` yields an emitted
record containing a `trace_id` attribute even though the context carries no
span at all — the claim's "no trace_id attribute when no span is active"
fails as stated. -/
theorem c6_correlation_counterexample :
    (spanFromContext none).recording = false ∧
    countKey "trace_id" (emittedRemoteAttrs baseHandler none collidingRecord none) = 1 :=
  ⟨rfl, rfl⟩

/-- Claim C6 (amended): provided no handler-level or record-level attribute
itself uses the keys `trace_id` or `span_id`, the emitted record contains no
`trace_id` and no `span_id` attribute when the context carries no recording
span, and exactly one of each — valued at the string forms of the active
span's identifiers — when it does. -/
theorem c6_correlation_attrs (h : OtelHandler) (ctx : Option SpanInfo)
    (r : SlogRecord) (cs : Option CallSite)
    (hk : ∀ a ∈ h.attrs ++ r.attrs, a.key ≠ "trace_id" ∧ a.key ≠ "span_id") :
    ((spanFromContext ctx).recording = false →
      countKey "trace_id" (emittedRemoteAttrs h ctx r cs) = 0 ∧
      countKey "span_id" (emittedRemoteAttrs h ctx r cs) = 0) ∧
    ((spanFromContext ctx).recording = true →
      countKey "trace_id" (emittedRemoteAttrs h ctx r cs) = 1 ∧
      countKey "span_id" (emittedRemoteAttrs h ctx r cs) = 1 ∧
      logString "trace_id" (spanFromContext ctx).traceId ∈ emittedRemoteAttrs h ctx r cs ∧
      logString "span_id" (spanFromContext ctx).spanId ∈ emittedRemoteAttrs h ctx r cs) := by
  have hh : ∀ a ∈ h.attrs, a.key ≠ "trace_id" ∧ a.key ≠ "span_id" :=
    fun a ha => hk a (List.mem_append_left _ ha)
  have hr2 : ∀ a ∈ r.attrs, a.key ≠ "trace_id" ∧ a.key ≠ "span_id" :=
    fun a ha => hk a (List.mem_append_right _ ha)
  have cht : countKey "trace_id" (handlerAttrPart h) = 0 :=
    countKey_handlerPart _ _ (fun a ha => (hh a ha).1)
  have chs : countKey "span_id" (handlerAttrPart h) = 0 :=
    countKey_handlerPart _ _ (fun a ha => (hh a ha).2)
  have crt : countKey "trace_id" (recordAttrPart r) = 0 :=
    countKey_recordPart _ _ (fun a ha => (hr2 a ha).1)
  have crs : countKey "span_id" (recordAttrPart r) = 0 :=
    countKey_recordPart _ _ (fun a ha => (hr2 a ha).2)
  have cgt : countKey "trace_id" (groupAttrPart h) = 0 :=
    countKey_groupPart _ _ (by decide)
  have cgs : countKey "span_id" (groupAttrPart h) = 0 :=
    countKey_groupPart _ _ (by decide)
  have cst : countKey "trace_id" (sourceAttrPart cs) = 0 :=
    countKey_sourcePart _ _ (by decide)
  have css : countKey "span_id" (sourceAttrPart cs) = 0 :=
    countKey_sourcePart _ _ (by decide)
  rw [emittedRemoteAttrs_parts]
  constructor
  · intro hrec
    simp only [countKey_append]
    rw [cht, crt, cgt, cst, chs, crs, cgs, css,
      countKey_tracePart_notrec "trace_id" _ hrec,
      countKey_tracePart_notrec "span_id" _ hrec]
    exact ⟨rfl, rfl⟩
  · intro hrec
    have ctp : countKey "trace_id" (traceAttrPart ctx) = 1 := by
      rw [tracePart_rec ctx hrec]
      simp [countKey, List.countP_cons, logString]
    have csp : countKey "span_id" (traceAttrPart ctx) = 1 := by
      rw [tracePart_rec ctx hrec]
      simp [countKey, List.countP_cons, logString]
    have memt : logString "trace_id" (spanFromContext ctx).traceId ∈ traceAttrPart ctx := by
      rw [tracePart_rec ctx hrec]
      exact List.mem_cons_self _ _
    have mems : logString "span_id" (spanFromContext ctx).spanId ∈ traceAttrPart ctx := by
      rw [tracePart_rec ctx hrec]
      simp
    refine ⟨?_, ?_, ?_, ?_⟩
    · simp only [countKey_append]
      rw [cht, crt, cgt, cst, ctp]
    · simp only [countKey_append]
      rw [chs, crs, cgs, css, csp]
    · exact List.mem_append_left _ (List.mem_append_right _ memt)
    · exact List.mem_append_left _ (List.mem_append_right _ mems)

theorem c6_correlation_attrs_witness :
    countKey "trace_id" (emittedRemoteAttrs baseHandler (some recSpan) plainRecord none) = 1 ∧
    countKey "span_id" (emittedRemoteAttrs baseHandler (some recSpan) plainRecord none) = 1 ∧
    countKey "trace_id" (emittedRemoteAttrs baseHandler none plainRecord none) = 0 :=
  ⟨((c6_correlation_attrs baseHandler (some recSpan) plainRecord none
      (by intro a ha; simp [baseHandler, plainRecord] at ha)).2 rfl).1,
   ((c6_correlation_attrs baseHandler (some recSpan) plainRecord none
      (by intro a ha; simp [baseHandler, plainRecord] at ha)).2 rfl).2.1,
   ((c6_correlation_attrs baseHandler none plainRecord none
      (by intro a ha; simp [baseHandler, plainRecord] at ha)).1 rfl).1⟩

end OtelClient
